import Mathlib

/-!
# nemo-previewer: the previewer D-Bus bridge

A shallow embedding of `src/nemo-previewer.c`.  The C file mutates three kinds
of state: the `NemoPreviewer` objects on the GObject heap (reference count,
connection handle, stored subscription id), the file-static `singleton`
pointer, and the outside world it talks to (the session bus, standard error,
the debug channel, the application windows).  All of it is gathered in one
`Process` record that every function takes and returns.

Pointers are natural numbers; dereferencing a pointer that is not on the heap
is undefined behaviour in C and is `none` here.  GLib itself is not part of
the repository: the handful of GLib entry points the file calls are given the
behaviour their documentation states, as a recording bus.
-/

set_option linter.unusedVariables false

namespace Nemo

/-! ## Constants -/

/-- The well-known bus name, `#define PREVIEWER_DBUS_NAME`. -/
def PREVIEWER_DBUS_NAME : String := "org.gnome.NautilusPreviewer"

/-- The method interface, `#define PREVIEWER_DBUS_IFACE`. -/
def PREVIEWER_DBUS_IFACE : String := "org.gnome.NautilusPreviewer"

/-- The signal interface, `#define PREVIEWER_DBUS_EVENT`. -/
def PREVIEWER_DBUS_EVENT : String := "org.gnome.NautilusPreviewer2"

/-- The object path, `#define PREVIEWER_DBUS_PATH`. -/
def PREVIEWER_DBUS_PATH : String := "/org/gnome/NautilusPreviewer"

/-- GIO call flag word with no bit set. -/
def G_DBUS_CALL_FLAGS_NONE : Nat := 0

/-- GIO call flag bit `1 << 0`: the bus must not launch an owner for the destination name. -/
def G_DBUS_CALL_FLAGS_NO_AUTO_START : Nat := 1

/-- Test of the do-not-auto-start bit in a call flag word. -/
def no_auto_start_set (flags : Nat) : Bool :=
  flags &&& G_DBUS_CALL_FLAGS_NO_AUTO_START != 0

/-! ## Values sent over the bus -/

/-- The two variant shapes the file builds or reads: `(sib)` and `(u)`. -/
inductive GVariant where
  | tuple_sib (s : String) (i : Int) (b : Bool)
  | tuple_u (u : Nat)
  deriving DecidableEq, Repr

/-- The value a C `guint` argument has when a variadic callee reads it back as
`gint32`, which is what the `i` of the format string `(sib)` does: the 32-bit
pattern is kept and read in two's complement. -/
def gint32_of_guint (x : Nat) : Int :=
  if x % 2 ^ 32 < 2 ^ 31 then ((x % 2 ^ 32 : Nat) : Int)
  else ((x % 2 ^ 32 : Nat) : Int) - 2 ^ 32

/-- The call `g_variant_new ("(sib)", uri, xid, close_if_already_visible)`;
`xid` is declared `guint`, the flag `gboolean`. -/
def g_variant_new_sib (uri : String) (xid : Nat) (close_if_already_visible : Bool) : GVariant :=
  GVariant.tuple_sib uri (gint32_of_guint xid) close_if_already_visible

/-- The call `g_variant_get (parameters, "(u)", &direction)`; on a variant of
another shape GLib stores nothing, so the C variable stays uninitialised. -/
def g_variant_get_u : GVariant → Option Nat
  | GVariant.tuple_u d => some d
  | GVariant.tuple_sib _ _ _ => none

/-- The two completion callbacks of the file, as data. -/
inductive ReadyCallback where
  | show_file_ready
  | close_ready
  deriving DecidableEq, Repr

/-- One `g_dbus_connection_call`, argument by argument. -/
structure MethodCall where
  connection : Nat
  bus_name : String
  object_path : String
  interface_name : String
  method_name : String
  parameters : Option GVariant
  reply_type : Option String
  flags : Nat
  timeout_msec : Int
  cancellable : Option Nat
  callback : ReadyCallback
  user_data : Nat
  deriving DecidableEq, Repr

/-- A live signal match on the connection. -/
structure SignalSubscription where
  id : Nat
  sender : String
  interface_name : String
  member : String
  object_path : String
  deriving DecidableEq, Repr

/-- The operations the bridge performs on the bus, in the order performed. -/
inductive BusOp where
  | call (c : MethodCall)
  | subscribe (connection : Nat) (s : SignalSubscription)
  | unsubscribe (connection : Nat) (id : Nat)
  deriving DecidableEq, Repr

/-- The session bus as a recording device: `log` is every operation so far
(oldest first), `subscriptions` the live signal matches, `pending` the method
calls whose completion callback has not run yet.  The n-th subscription is
handed the id `alloc n`; `issued` counts the subscriptions made. -/
structure Bus where
  log : List BusOp
  subscriptions : List SignalSubscription
  pending : List MethodCall
  alloc : Nat → Nat
  issued : Nat

/-- The method calls dispatched so far, oldest first. -/
def Bus.dispatches (b : Bus) : List MethodCall :=
  b.log.filterMap (fun op => match op with
    | BusOp.call c => some c
    | _ => none)

/-- The signal match the bridge registers, with the id the bus gave it. -/
def selection_match (id : Nat) : SignalSubscription :=
  { id := id, sender := "org.gnome.NautilusPreviewer",
    interface_name := "org.gnome.NautilusPreviewer2", member := "SelectionEvent",
    object_path := "/org/gnome/NautilusPreviewer" }

/-- The live matches for the previewer selection signal. -/
def Bus.selection_subscriptions (b : Bus) : List SignalSubscription :=
  b.subscriptions.filter (fun s =>
    s.sender == PREVIEWER_DBUS_NAME && s.interface_name == PREVIEWER_DBUS_EVENT
      && s.member == "SelectionEvent" && s.object_path == PREVIEWER_DBUS_PATH)

/-! ## The host application, as far as the signal handler looks at it -/

/-- What a slot's current-view pointer refers to: an object identity and
whether its runtime type is a `NemoView`. -/
structure ViewObject where
  id : Nat
  is_nemo_view : Bool
  deriving DecidableEq, Repr

/-- A window slot (the active pane of a window); `current_view` may be NULL. -/
structure NemoWindowSlot where
  current_view : Option ViewObject
  deriving DecidableEq, Repr

/-- A file-manager window. -/
structure NemoWindow where
  active_slot : NemoWindowSlot
  deriving DecidableEq, Repr

/-- A top-level window of the application: a file-manager window or some
other window type. -/
inductive GtkWindow where
  | nemo_window (w : NemoWindow)
  | other (id : Nat)
  deriving DecidableEq, Repr

/-! ## Objects and the process state -/

/-- A `NemoPreviewer` instance: the GObject reference count, whether
`&singleton` is registered on it as a weak pointer location, and the two
fields of `struct _NemoPreviewerPriv`. -/
structure NemoPreviewer where
  ref_count : Nat
  weak_singleton : Bool
  connection : Option Nat
  previewer_selection_id : Nat
  deriving DecidableEq, Repr

/-- The whole state the file reads and writes. -/
structure Process where
  -- the file-static `NemoPreviewer *singleton`
  singleton : Option Nat
  -- the live `NemoPreviewer` objects, by address
  heap : List (Nat × NemoPreviewer)
  -- the address the next allocation gets
  next_addr : Nat
  -- what `g_bus_get_sync` yields: a connection handle or an error message
  session_bus : Except String Nat
  bus : Bus
  -- lines written with `g_printerr`, oldest first
  stderr : List String
  -- lines written with `DEBUG`, oldest first
  debug_log : List String
  -- result of `gtk_application_get_windows`
  windows : List GtkWindow
  -- calls of `nemo_view_preview_selection_event`: (view id, direction), oldest first
  delivered : List (Nat × Nat)

/-- Lookup of an address in an object heap. -/
def heap_get (a : Nat) : List (Nat × NemoPreviewer) → Option NemoPreviewer
  | [] => none
  | (b, o) :: t => if b = a then some o else heap_get a t

/-- In-place update of the object at an address; nothing happens when the
address is not on the heap. -/
def heap_modify (a : Nat) (f : NemoPreviewer → NemoPreviewer) :
    List (Nat × NemoPreviewer) → List (Nat × NemoPreviewer)
  | [] => []
  | (b, o) :: t => if b = a then (b, f o) :: t else (b, o) :: heap_modify a f t

/-- Pointer dereference. -/
def Process.deref (p : Process) (a : Nat) : Option NemoPreviewer :=
  heap_get a p.heap

/-- A field write through a pointer. -/
def Process.modify (p : Process) (a : Nat) (f : NemoPreviewer → NemoPreviewer) : Process :=
  { p with heap := heap_modify a f p.heap }

/-- A process that has not created a bridge yet. -/
def Process.start (session_bus : Except String Nat) (alloc : Nat → Nat)
    (windows : List GtkWindow) : Process :=
  { singleton := none, heap := [], next_addr := 1, session_bus := session_bus,
    bus := { log := [], subscriptions := [], pending := [], alloc := alloc, issued := 0 },
    stderr := [], debug_log := [], windows := windows, delivered := [] }

/-! ## GLib entry points -/

/-- One line on standard error. -/
def g_printerr (msg : String) (p : Process) : Process :=
  { p with stderr := p.stderr ++ [msg] }

/-- One line on the debug channel. -/
def DEBUG (msg : String) (p : Process) : Process :=
  { p with debug_log := p.debug_log ++ [msg] }

/-- Take one more reference on the object at `a`. -/
def g_object_ref (a : Nat) (p : Process) : Process :=
  p.modify a (fun o => { o with ref_count := o.ref_count + 1 })

/-- Registration of `&singleton` as a weak pointer location of the object. -/
def g_object_add_weak_pointer (a : Nat) (p : Process) : Process :=
  p.modify a (fun o => { o with weak_singleton := true })

/-- Asynchronous method call: recorded on the bus and kept pending until its
completion callback runs. -/
def g_dbus_connection_call (c : MethodCall) (p : Process) : Process :=
  { p with bus := { p.bus with log := p.bus.log ++ [BusOp.call c],
                               pending := p.bus.pending ++ [c] } }

/-- Signal match registration: the bus hands out the next id and keeps the match live. -/
def g_dbus_connection_signal_subscribe (connection : Nat) (sender interface_name member
    object_path : String) (p : Process) : Nat × Process :=
  let s : SignalSubscription :=
    { id := p.bus.alloc p.bus.issued, sender := sender, interface_name := interface_name,
      member := member, object_path := object_path }
  (s.id, { p with bus := { p.bus with log := p.bus.log ++ [BusOp.subscribe connection s],
                                      subscriptions := p.bus.subscriptions ++ [s],
                                      issued := p.bus.issued + 1 } })

/-- Signal match removal: every live match with that id is dropped. -/
def g_dbus_connection_signal_unsubscribe (connection : Nat) (id : Nat) (p : Process) : Process :=
  { p with bus := { p.bus with log := p.bus.log ++ [BusOp.unsubscribe connection id],
                               subscriptions := p.bus.subscriptions.filter (fun s => s.id != id) } }

/-! ## The functions of `src/nemo-previewer.c` -/

/-- Source lines 49-59: the connection handle is cleared. -/
def nemo_previewer_dispose (self : Nat) (p : Process) : Process :=
  (DEBUG (toString self) p).modify self (fun o => { o with connection := none })

/-- The last-reference path of `g_object_unref` for the object `o` at `a`:
the class dispose handler runs, the weak pointer locations registered on the
object are set to NULL, and the memory is released. -/
def g_object_last_unref (a : Nat) (o : NemoPreviewer) (p : Process) : Process :=
  let p1 := nemo_previewer_dispose a p
  { p1 with singleton := if o.weak_singleton then none else p1.singleton,
            heap := p1.heap.filter (fun e => e.1 != a) }

/-- Drop one reference on the object at `a`; the last one finalizes it.
Unreferencing an address that holds no object is undefined. -/
def g_object_unref (a : Nat) (p : Process) : Option Process :=
  match p.deref a with
  | none => none
  | some o =>
    if o.ref_count ≤ 1 then some (g_object_last_unref a o p)
    else some (p.modify a (fun x => { x with ref_count := x.ref_count - 1 }))

/-- Source lines 80-96: the session bus is acquired synchronously; on failure
one line goes to standard error and the handle stays absent. -/
def nemo_previewer_init (self : Nat) (p : Process) : Process :=
  match p.session_bus with
  | Except.ok connection =>
    p.modify self (fun o => { o with connection := some connection })
  | Except.error message =>
    g_printerr ("Unable to initialize DBus connection: " ++ message)
      (p.modify self (fun o => { o with connection := none }))

/-- The parent class constructor: a zero-filled instance with one reference is
allocated at a fresh address and the instance initialiser runs on it. -/
def g_object_constructor (p : Process) : Nat × Process :=
  let retval := p.next_addr
  let o : NemoPreviewer :=
    { ref_count := 1, weak_singleton := false, connection := none, previewer_selection_id := 0 }
  (retval, nemo_previewer_init retval
    { p with heap := (retval, o) :: p.heap, next_addr := retval + 1 })

/-- Source lines 61-78. -/
def nemo_previewer_constructor (p : Process) : Nat × Process :=
  match p.singleton with
  | some s => (s, p)
  | none =>
    let r := g_object_constructor p
    (r.1, g_object_add_weak_pointer r.1 { r.2 with singleton := some r.1 })

/-- Source lines 150-154: `g_object_new (NEMO_TYPE_PREVIEWER, NULL)` runs the
class constructor and hands its result back. -/
def nemo_previewer_get_singleton (p : Process) : Nat × Process :=
  nemo_previewer_constructor p

/-- Source lines 266-279. -/
def nemo_previewer_connect_selection_event (connection : Nat) (p : Process) : Nat × Process :=
  g_dbus_connection_signal_subscribe connection PREVIEWER_DBUS_NAME PREVIEWER_DBUS_EVENT
    "SelectionEvent" PREVIEWER_DBUS_PATH p

/-- Source lines 281-286. -/
def nemo_previewer_disconnect_selection_event (connection : Nat) (event_id : Nat)
    (p : Process) : Process :=
  g_dbus_connection_signal_unsubscribe connection event_id p

/-- The method call built at source lines 167-179. -/
def show_file_call (connection : Nat) (uri : String) (xid : Nat)
    (close_if_already_visible : Bool) (self : Nat) : MethodCall :=
  { connection := connection, bus_name := PREVIEWER_DBUS_NAME,
    object_path := PREVIEWER_DBUS_PATH, interface_name := PREVIEWER_DBUS_IFACE,
    method_name := "ShowFile",
    parameters := some (g_variant_new_sib uri xid close_if_already_visible),
    reply_type := none, flags := G_DBUS_CALL_FLAGS_NONE, timeout_msec := -1,
    cancellable := none, callback := ReadyCallback.show_file_ready, user_data := self }

/-- The method call built at source lines 202-213. -/
def close_call (connection : Nat) (self : Nat) : MethodCall :=
  { connection := connection, bus_name := PREVIEWER_DBUS_NAME,
    object_path := PREVIEWER_DBUS_PATH, interface_name := PREVIEWER_DBUS_IFACE,
    method_name := "Close", parameters := none, reply_type := none,
    flags := G_DBUS_CALL_FLAGS_NO_AUTO_START, timeout_msec := -1,
    cancellable := none, callback := ReadyCallback.close_ready, user_data := self }

/-- Source lines 156-191.  The object is read once on entry: neither
`g_object_ref` nor the bus calls write the two private fields, so the later
reads of `self->priv` in the C text see these values. -/
def nemo_previewer_call_show_file (self : Nat) (uri : String) (xid : Nat)
    (close_if_already_visible : Bool) (p : Process) : Option Process :=
  match p.deref self with
  | none => none
  | some obj =>
    match obj.connection with
    | none => some (g_printerr "No DBus connection available" p)
    | some connection =>
      let p1 := g_object_ref self p
      let p2 := g_dbus_connection_call
        (show_file_call connection uri xid close_if_already_visible self) p1
      let p3 :=
        if obj.previewer_selection_id ≠ 0 then
          (nemo_previewer_disconnect_selection_event connection obj.previewer_selection_id
            p2).modify self (fun o => { o with previewer_selection_id := 0 })
        else p2
      let r := nemo_previewer_connect_selection_event connection p3
      some (r.2.modify self (fun o => { o with previewer_selection_id := r.1 }))

/-- Source lines 193-222. -/
def nemo_previewer_call_close (self : Nat) (p : Process) : Option Process :=
  match p.deref self with
  | none => none
  | some obj =>
    match obj.connection with
    | none => some (g_printerr "No DBus connection available" p)
    | some connection =>
      let p1 := g_object_ref self p
      let p2 := g_dbus_connection_call (close_call connection self) p1
      if obj.previewer_selection_id ≠ 0 then
        some ((nemo_previewer_disconnect_selection_event connection obj.previewer_selection_id
          p2).modify self (fun o => { o with previewer_selection_id := 0 }))
      else some p2

/-- Source lines 110-128.  `res` is the outcome of the call: `none` for a
reply, `some message` for an error. -/
def previewer_show_file_ready_cb (res : Option String) (user_data : Nat)
    (p : Process) : Option Process :=
  match p.deref user_data with
  | none => none
  | some _ =>
    match res with
    | some message =>
      g_object_unref user_data (DEBUG ("Unable to call ShowFile on NemoPreviewer: " ++ message) p)
    | none => g_object_unref user_data p

/-- Source lines 130-148. -/
def previewer_close_ready_cb (res : Option String) (user_data : Nat)
    (p : Process) : Option Process :=
  match p.deref user_data with
  | none => none
  | some _ =>
    match res with
    | some message =>
      g_object_unref user_data (DEBUG ("Unable to call Close on NemoPreviewer: " ++ message) p)
    | none => g_object_unref user_data p

/-! ### The signal handler and what it needs from the host -/

/-- Modelled from the spec: the type test `NEMO_IS_WINDOW` of `nemo-window.h`,
"whose runtime type is the file-manager window type". -/
def NEMO_IS_WINDOW : GtkWindow → Bool
  | GtkWindow.nemo_window _ => true
  | GtkWindow.other _ => false

/-- Modelled from the spec: `nemo_window_get_active_slot` of `nemo-window.c`,
"obtain the active pane (an opaque object the window exposes)". -/
def nemo_window_get_active_slot (window : NemoWindow) : NemoWindowSlot :=
  window.active_slot

/-- Modelled from the spec: `nemo_window_slot_get_current_view` of
`nemo-window-slot.c`, "from the pane, obtain the current view", which may be absent. -/
def nemo_window_slot_get_current_view (slot : NemoWindowSlot) : Option ViewObject :=
  slot.current_view

/-- Modelled from the spec: the type test `NEMO_IS_VIEW` of `nemo-view.h`; it
fails on NULL and on an object "not of the expected polymorphic view capability set". -/
def NEMO_IS_VIEW : Option ViewObject → Bool
  | some v => v.is_nemo_view
  | none => false

/-- Modelled from the spec: `nemo_view_preview_selection_event` of
`nemo-view.c`, the view's "preview selection event" entry point; the call is recorded. -/
def nemo_view_preview_selection_event (view : ViewObject) (direction : Nat)
    (p : Process) : Process :=
  { p with delivered := p.delivered ++ [(view.id, direction)] }

/-- The loop at source lines 240-247: the first list element that passes
`NEMO_IS_WINDOW`, or NULL. -/
def selection_event_window : List GtkWindow → Option NemoWindow
  | [] => none
  | GtkWindow.nemo_window w :: _ => some w
  | GtkWindow.other _ :: next => selection_event_window next

/-- Source lines 224-264.  The result is `none` when the C text would pass an
uninitialised `direction` on (a payload that is not `(u)`). -/
def previewer_selection_event (connection : Nat) (sender_name object_path interface_name
    signal_name : String) (parameters : GVariant) (user_data : Option Nat)
    (p : Process) : Option Process :=
  match selection_event_window p.windows with
  | none => some p
  | some window =>
    let slot := nemo_window_get_active_slot window
    let view := nemo_window_slot_get_current_view slot
    if NEMO_IS_VIEW view = false then some p
    else
      match view, g_variant_get_u parameters with
      | some v, some direction => some (nemo_view_preview_selection_event v direction p)
      | _, _ => none

/-! ## Drivers: sequences of calls made on the bridge by its clients and by the bus -/

/-- What can happen to one bridge: a client calls `show_file` or `close`, or
the bus completes the pending call at position `i` with outcome `res`. -/
inductive BridgeEvent where
  | show_file (uri : String) (xid : Nat) (close_if_already_visible : Bool)
  | close
  | complete (i : Nat) (res : Option String)
  deriving DecidableEq, Repr

/-- The bus completes the pending call at position `i`: the call leaves the
pending list and the callback it was dispatched with runs on its user data. -/
def complete_call (i : Nat) (res : Option String) (p : Process) : Option Process :=
  match p.bus.pending.get? i with
  | none => some p
  | some c =>
    let p1 := { p with bus := { p.bus with pending := p.bus.pending.eraseIdx i } }
    match c.callback with
    | ReadyCallback.show_file_ready => previewer_show_file_ready_cb res c.user_data p1
    | ReadyCallback.close_ready => previewer_close_ready_cb res c.user_data p1

/-- One event on the bridge at `self`. -/
def bridge_step (self : Nat) : BridgeEvent → Process → Option Process
  | BridgeEvent.show_file uri xid flag, p => nemo_previewer_call_show_file self uri xid flag p
  | BridgeEvent.close, p => nemo_previewer_call_close self p
  | BridgeEvent.complete i res, p => complete_call i res p

/-- A finite sequence of events on the bridge at `self`, in order. -/
def bridge_run (self : Nat) : List BridgeEvent → Process → Option Process
  | [], p => some p
  | e :: es, p =>
    match bridge_step self e p with
    | none => none
    | some p1 => bridge_run self es p1

/-- What can happen to the singleton: a client requests it, or the published
instance is finalized (its last reference goes away). -/
inductive LifecycleEvent where
  | request
  | finalize
  deriving DecidableEq, Repr

/-- One lifecycle event; a finalization with nothing published does nothing. -/
def lifecycle_step : LifecycleEvent → Process → Process
  | LifecycleEvent.request, p => (nemo_previewer_get_singleton p).2
  | LifecycleEvent.finalize, p =>
    match p.singleton with
    | none => p
    | some a =>
      match p.deref a with
      | none => p
      | some o => g_object_last_unref a o p

/-- A finite sequence of lifecycle events, in order. -/
def lifecycle_run : List LifecycleEvent → Process → Process
  | [], p => p
  | e :: es, p => lifecycle_run es (lifecycle_step e p)

/-! ## Derived states, invariants and sample processes used by the properties -/

/-- The state `nemo_previewer_call_show_file` leaves behind on a live connection. -/
def show_file_result (self connection : Nat) (obj : NemoPreviewer) (uri : String) (xid : Nat)
    (flag : Bool) (p : Process) : Process :=
  { p with
    heap := heap_modify self (fun o =>
      { o with
        ref_count := o.ref_count + 1,
        previewer_selection_id := p.bus.alloc p.bus.issued }) p.heap,
    bus := { p.bus with
      log := p.bus.log ++ [BusOp.call (show_file_call connection uri xid flag self)]
        ++ (if obj.previewer_selection_id ≠ 0
            then [BusOp.unsubscribe connection obj.previewer_selection_id] else [])
        ++ [BusOp.subscribe connection (selection_match (p.bus.alloc p.bus.issued))],
      subscriptions := (if obj.previewer_selection_id ≠ 0
          then p.bus.subscriptions.filter (fun s => s.id != obj.previewer_selection_id)
          else p.bus.subscriptions)
        ++ [selection_match (p.bus.alloc p.bus.issued)],
      pending := p.bus.pending ++ [show_file_call connection uri xid flag self],
      issued := p.bus.issued + 1 } }

/-- The state `nemo_previewer_call_close` leaves behind on a live connection. -/
def close_result (self connection : Nat) (obj : NemoPreviewer) (p : Process) : Process :=
  { p with
    heap := heap_modify self (fun o =>
      { o with
        ref_count := o.ref_count + 1,
        previewer_selection_id := 0 }) p.heap,
    bus := { p.bus with
      log := p.bus.log ++ [BusOp.call (close_call connection self)]
        ++ (if obj.previewer_selection_id ≠ 0
            then [BusOp.unsubscribe connection obj.previewer_selection_id] else []),
      subscriptions := (if obj.previewer_selection_id ≠ 0
          then p.bus.subscriptions.filter (fun s => s.id != obj.previewer_selection_id)
          else p.bus.subscriptions),
      pending := p.bus.pending ++ [close_call connection self] } }

/-- A process whose bridge was created over a working session bus that numbers
its subscriptions 1, 2, 3, ...; the bridge sits at address 1 and holds
connection 7. -/
def demo_live : Process :=
  (nemo_previewer_get_singleton (Process.start (Except.ok 7) (fun n => n + 1) [])).2

/-- A process whose bridge was created while the session bus could not be reached. -/
def demo_inert : Process :=
  (nemo_previewer_get_singleton
    (Process.start (Except.error "no bus") (fun n => n + 1) [])).2

/-- A process with three windows: a dialog, a file-manager window showing
view 40, and a second file-manager window showing view 41. -/
def demo_windows : Process :=
  Process.start (Except.ok 7) (fun n => n + 1)
    [GtkWindow.other 9, GtkWindow.nemo_window ⟨⟨some ⟨40, true⟩⟩⟩,
     GtkWindow.nemo_window ⟨⟨some ⟨41, true⟩⟩⟩]

/-- The shape every state of the lifecycle has: nothing published and no
instance alive, or one instance alive, published, with the weak pointer on it. -/
def lifecycle_inv (p : Process) : Prop :=
  (p.singleton = none ∧ p.heap = [])
    ∨ (∃ a o, p.singleton = some a ∧ p.heap = [(a, o)] ∧ o.weak_singleton = true)

/-- The state after a sequence of lifecycle events in a process that started
without a bridge. -/
def lifecycle_state (session_bus : Except String Nat) (alloc : Nat → Nat)
    (windows : List GtkWindow) (evs : List LifecycleEvent) : Process :=
  lifecycle_run evs (Process.start session_bus alloc windows)

/-- The state either completion callback leaves behind when the bridge has at
least one reference besides the one the call held; `text` is the debug line
the callback writes on an error. -/
def ready_result (text : String) (res : Option String) (user_data : Nat) (p : Process) :
    Process :=
  { p with
    heap := heap_modify user_data (fun x => { x with ref_count := x.ref_count - 1 }) p.heap,
    debug_log := p.debug_log ++ (match res with
      | some message => [text ++ message]
      | none => []) }

/-- The reference count of the bridge is `n` plus one per pending call, and
every pending call carries the bridge as its user data. -/
def ref_inv (self n : Nat) (p : Process) : Prop :=
  ∃ o, p.deref self = some o ∧ o.ref_count = n + p.bus.pending.length
    ∧ ∀ c, c ∈ p.bus.pending → c.user_data = self

/-- The bus hands out nonzero ids, and the live selection matches are exactly
what the stored id says: none for zero, the one match of that id otherwise. -/
def sub_inv (self : Nat) (p : Process) : Prop :=
  (∀ k, p.bus.alloc k ≠ 0)
    ∧ ∃ o, p.deref self = some o
      ∧ p.bus.selection_subscriptions
          = (if o.previewer_selection_id = 0 then []
             else [selection_match o.previewer_selection_id])

/-! ## Properties -/

/-! ### Heap bookkeeping -/

theorem heap_get_modify (a : Nat) (f : NemoPreviewer → NemoPreviewer)
    (h : List (Nat × NemoPreviewer)) :
    heap_get a (heap_modify a f h) = (heap_get a h).map f := by
  induction h with
  | nil => rfl
  | cons e t ih =>
    obtain ⟨b, o⟩ := e
    by_cases hb : b = a
    · simp [heap_get, heap_modify, hb]
    · simp [heap_get, heap_modify, hb, ih]

theorem heap_modify_modify (a : Nat) (f g : NemoPreviewer → NemoPreviewer)
    (h : List (Nat × NemoPreviewer)) :
    heap_modify a g (heap_modify a f h) = heap_modify a (fun o => g (f o)) h := by
  induction h with
  | nil => rfl
  | cons e t ih =>
    obtain ⟨b, o⟩ := e
    by_cases hb : b = a
    · simp [heap_modify, hb]
    · simp [heap_modify, hb, ih]

theorem show_file_live (self connection : Nat) (obj : NemoPreviewer) (uri : String) (xid : Nat)
    (flag : Bool) (p : Process) (hobj : p.deref self = some obj)
    (hconn : obj.connection = some connection) :
    nemo_previewer_call_show_file self uri xid flag p
      = some (show_file_result self connection obj uri xid flag p) := by
  unfold nemo_previewer_call_show_file
  rw [hobj]
  simp only [hconn]
  by_cases hs : obj.previewer_selection_id = 0
  · simp [hs, show_file_result, nemo_previewer_connect_selection_event,
      g_dbus_connection_signal_subscribe, g_dbus_connection_call, g_object_ref,
      Process.modify, heap_modify_modify, selection_match, PREVIEWER_DBUS_NAME,
      PREVIEWER_DBUS_EVENT, PREVIEWER_DBUS_PATH]
  · simp [hs, show_file_result, nemo_previewer_connect_selection_event,
      nemo_previewer_disconnect_selection_event, g_dbus_connection_signal_unsubscribe,
      g_dbus_connection_signal_subscribe, g_dbus_connection_call, g_object_ref,
      Process.modify, heap_modify_modify, selection_match, PREVIEWER_DBUS_NAME,
      PREVIEWER_DBUS_EVENT, PREVIEWER_DBUS_PATH]

theorem heap_modify_congr (a : Nat) (f g : NemoPreviewer → NemoPreviewer)
    (h : List (Nat × NemoPreviewer)) (hfg : ∀ o, heap_get a h = some o → f o = g o) :
    heap_modify a f h = heap_modify a g h := by
  induction h with
  | nil => rfl
  | cons e t ih =>
    obtain ⟨b, o⟩ := e
    by_cases hb : b = a
    · have := hfg o (by simp [heap_get, hb])
      simp [heap_modify, hb, this]
    · have ht : ∀ o, heap_get a t = some o → f o = g o := by
        intro o ho
        exact hfg o (by simp [heap_get, hb, ho])
      simp [heap_modify, hb, ih ht]

theorem close_live (self connection : Nat) (obj : NemoPreviewer) (p : Process)
    (hobj : p.deref self = some obj) (hconn : obj.connection = some connection) :
    nemo_previewer_call_close self p = some (close_result self connection obj p) := by
  unfold nemo_previewer_call_close
  rw [hobj]
  simp only [hconn]
  by_cases hs : obj.previewer_selection_id = 0
  · have hcong : heap_modify self (fun o => { o with ref_count := o.ref_count + 1 }) p.heap
        = heap_modify self (fun o =>
            { o with ref_count := o.ref_count + 1, previewer_selection_id := 0 }) p.heap := by
      apply heap_modify_congr
      intro o ho
      have : o = obj := by
        have h2 : heap_get self p.heap = some obj := hobj
        rw [ho] at h2
        exact Option.some.inj h2
      subst this
      cases o
      simp_all
    simp [hs, close_result, g_dbus_connection_call, g_object_ref, Process.modify, hcong]
  · simp [hs, close_result, nemo_previewer_disconnect_selection_event,
      g_dbus_connection_signal_unsubscribe, g_dbus_connection_call, g_object_ref,
      Process.modify, heap_modify_modify]

theorem selection_subscriptions_append_match (l : List SignalSubscription) (alloc : Nat → Nat)
    (lg : List BusOp) (pd : List MethodCall) (n id : Nat) :
    Bus.selection_subscriptions
        { log := lg, subscriptions := l ++ [selection_match id], pending := pd,
          alloc := alloc, issued := n }
      = (l.filter (fun s =>
          s.sender == PREVIEWER_DBUS_NAME && s.interface_name == PREVIEWER_DBUS_EVENT
            && s.member == "SelectionEvent" && s.object_path == PREVIEWER_DBUS_PATH))
        ++ [selection_match id] := by
  simp [Bus.selection_subscriptions, List.filter_append, selection_match, PREVIEWER_DBUS_NAME,
    PREVIEWER_DBUS_EVENT, PREVIEWER_DBUS_PATH]

theorem show_file_selection_subscriptions (self connection : Nat) (obj : NemoPreviewer)
    (uri : String) (xid : Nat) (flag : Bool) (p : Process) :
    (show_file_result self connection obj uri xid flag p).bus.selection_subscriptions
      = (if obj.previewer_selection_id ≠ 0
          then p.bus.selection_subscriptions.filter (fun s => s.id != obj.previewer_selection_id)
          else p.bus.selection_subscriptions)
        ++ [selection_match (p.bus.alloc p.bus.issued)] := by
  unfold show_file_result
  simp only [selection_subscriptions_append_match]
  by_cases hs : obj.previewer_selection_id = 0
  · simp [hs, Bus.selection_subscriptions]
  · simp [hs, Bus.selection_subscriptions, List.filter_filter, Bool.and_comm]

theorem close_selection_subscriptions (self connection : Nat) (obj : NemoPreviewer)
    (p : Process) :
    (close_result self connection obj p).bus.selection_subscriptions
      = (if obj.previewer_selection_id ≠ 0
          then p.bus.selection_subscriptions.filter (fun s => s.id != obj.previewer_selection_id)
          else p.bus.selection_subscriptions) := by
  unfold close_result
  by_cases hs : obj.previewer_selection_id = 0
  · simp [hs, Bus.selection_subscriptions]
  · simp [hs, Bus.selection_subscriptions, List.filter_filter, Bool.and_comm]

theorem show_file_dispatches (self connection : Nat) (obj : NemoPreviewer) (uri : String)
    (xid : Nat) (flag : Bool) (p : Process) :
    (show_file_result self connection obj uri xid flag p).bus.dispatches
      = p.bus.dispatches ++ [show_file_call connection uri xid flag self] := by
  by_cases hs : obj.previewer_selection_id = 0 <;>
    simp [show_file_result, Bus.dispatches, List.filterMap_append, hs]

theorem close_dispatches (self connection : Nat) (obj : NemoPreviewer) (p : Process) :
    (close_result self connection obj p).bus.dispatches
      = p.bus.dispatches ++ [close_call connection self] := by
  by_cases hs : obj.previewer_selection_id = 0 <;>
    simp [close_result, Bus.dispatches, List.filterMap_append, hs]

theorem deref_show_file_result (self connection : Nat) (obj : NemoPreviewer) (uri : String)
    (xid : Nat) (flag : Bool) (p : Process) (hobj : p.deref self = some obj) :
    (show_file_result self connection obj uri xid flag p).deref self
      = some { obj with ref_count := obj.ref_count + 1,
                        previewer_selection_id := p.bus.alloc p.bus.issued } := by
  have h : heap_get self p.heap = some obj := hobj
  simp [show_file_result, Process.deref, heap_get_modify, h]

theorem deref_close_result (self connection : Nat) (obj : NemoPreviewer) (p : Process)
    (hobj : p.deref self = some obj) :
    (close_result self connection obj p).deref self
      = some { obj with ref_count := obj.ref_count + 1, previewer_selection_id := 0 } := by
  have h : heap_get self p.heap = some obj := hobj
  simp [close_result, Process.deref, heap_get_modify, h]

/-- C3: on a bridge without a connection, `nemo_previewer_call_show_file` and
`nemo_previewer_call_close` each return a state that differs from the one they
were given only by one more line on standard error: no dispatch, no subscribe,
no unsubscribe, no change to any object.  On a bridge constructed while bus
acquisition failed, `show_file` followed by `close` leaves the bus log and the
subscriptions empty and adds exactly two lines to standard error (after the
one line construction wrote). -/
theorem absent_connection_inert :
    (∀ (p : Process) (self : Nat) (obj : NemoPreviewer) (uri : String) (xid : Nat)
        (flag : Bool), p.deref self = some obj → obj.connection = none →
        nemo_previewer_call_show_file self uri xid flag p
            = some { p with stderr := p.stderr ++ ["No DBus connection available"] }
          ∧ nemo_previewer_call_close self p
            = some { p with stderr := p.stderr ++ ["No DBus connection available"] })
      ∧ (∀ (message : String) (alloc : Nat → Nat) (windows : List GtkWindow) (uri : String)
          (xid : Nat) (flag : Bool),
          ∃ p2 p3,
            nemo_previewer_call_show_file
                (nemo_previewer_get_singleton
                  (Process.start (Except.error message) alloc windows)).1 uri xid flag
                (nemo_previewer_get_singleton
                  (Process.start (Except.error message) alloc windows)).2 = some p2
              ∧ nemo_previewer_call_close
                (nemo_previewer_get_singleton
                  (Process.start (Except.error message) alloc windows)).1 p2 = some p3
              ∧ p3.bus.log = [] ∧ p3.bus.dispatches = [] ∧ p3.bus.pending = []
              ∧ p3.bus.subscriptions = [] ∧ p3.bus.issued = 0
              ∧ p3.heap = (nemo_previewer_get_singleton
                  (Process.start (Except.error message) alloc windows)).2.heap
              ∧ p3.stderr = (nemo_previewer_get_singleton
                  (Process.start (Except.error message) alloc windows)).2.stderr
                  ++ ["No DBus connection available", "No DBus connection available"]
              ∧ p3.stderr = ["Unable to initialize DBus connection: " ++ message,
                  "No DBus connection available", "No DBus connection available"]) := by
  constructor
  · intro p self obj uri xid flag hobj hconn
    simp [nemo_previewer_call_show_file, nemo_previewer_call_close, hobj, hconn, g_printerr]
  · intro message alloc windows uri xid flag
    simp [nemo_previewer_call_show_file, nemo_previewer_call_close, nemo_previewer_get_singleton,
      nemo_previewer_constructor, g_object_constructor, nemo_previewer_init,
      g_object_add_weak_pointer, Process.start, Process.modify, Process.deref, heap_modify,
      heap_get, g_printerr, Bus.dispatches]

theorem absent_connection_inert_witness :
    demo_inert.deref 1 = some ⟨1, true, none, 0⟩
      ∧ nemo_previewer_call_show_file 1 "file:///tmp/a.png" 12345 false demo_inert
          = some { demo_inert with
              stderr := demo_inert.stderr ++ ["No DBus connection available"] }
      ∧ nemo_previewer_call_close 1 demo_inert
          = some { demo_inert with
              stderr := demo_inert.stderr ++ ["No DBus connection available"] } :=
  ⟨rfl, absent_connection_inert.1 demo_inert 1 ⟨1, true, none, 0⟩ "file:///tmp/a.png" 12345
    false rfl rfl⟩

theorem gint32_of_guint_small (x : Nat) (h : x < 2 ^ 31) : gint32_of_guint x = (x : Int) := by
  have h2 : x % 2 ^ 32 = x := Nat.mod_eq_of_lt (by omega)
  unfold gint32_of_guint
  rw [h2, if_pos h]

theorem gint32_of_guint_large (x : Nat) (h1 : 2 ^ 31 ≤ x) (h2 : x < 2 ^ 32) :
    gint32_of_guint x = (x : Int) - 2 ^ 32 := by
  have h3 : x % 2 ^ 32 = x := Nat.mod_eq_of_lt h2
  have h4 : ¬ x < 2 ^ 31 := by omega
  unfold gint32_of_guint
  rw [h3, if_neg h4]

/-- C5, as the claim states it, fails: for the window id 2147483648, which is a
valid unsigned 32-bit value, the int32 component of the dispatched ShowFile
tuple is -2147483648, not 2147483648. -/
theorem show_file_window_id_counterexample :
    (2147483648 : Nat) < 2 ^ 32
      ∧ (nemo_previewer_call_show_file 1 "file:///tmp/a.png" 2147483648 false demo_live).map
          (fun p => p.bus.dispatches.map (fun c => c.parameters))
        = some [some (GVariant.tuple_sib "file:///tmp/a.png" (-2147483648) false)]
      ∧ (nemo_previewer_call_show_file 1 "file:///tmp/a.png" 2147483648 false demo_live).map
          (fun p => p.bus.dispatches.map (fun c => c.parameters))
        ≠ some [some (GVariant.tuple_sib "file:///tmp/a.png" 2147483648 false)] := by
  decide

/-- C5, amended: for every uri, every window id below 2^32 and every flag, the
one method call `nemo_previewer_call_show_file` dispatches on a live connection
goes to service org.gnome.NautilusPreviewer, path /org/gnome/NautilusPreviewer,
interface org.gnome.NautilusPreviewer, member ShowFile, with the empty flag
word, timeout -1 (the default), no reply type and no cancellable; its argument
tuple is (uri, i, flag) where i is the window id read as a two's-complement
32-bit integer: the window id itself below 2^31, the window id minus 2^32 from
2^31 on. -/
theorem show_file_call_contents (p : Process) (self connection : Nat) (obj : NemoPreviewer)
    (uri : String) (xid : Nat) (flag : Bool)
    (hobj : p.deref self = some obj) (hconn : obj.connection = some connection)
    (hxid : xid < 2 ^ 32) :
    ∃ p1 c, nemo_previewer_call_show_file self uri xid flag p = some p1
      ∧ p1.bus.dispatches = p.bus.dispatches ++ [c]
      ∧ c.connection = connection
      ∧ c.bus_name = "org.gnome.NautilusPreviewer"
      ∧ c.object_path = "/org/gnome/NautilusPreviewer"
      ∧ c.interface_name = "org.gnome.NautilusPreviewer"
      ∧ c.method_name = "ShowFile"
      ∧ c.flags = 0
      ∧ c.timeout_msec = -1
      ∧ c.reply_type = none
      ∧ c.cancellable = none
      ∧ c.parameters = some (GVariant.tuple_sib uri
          (if xid < 2 ^ 31 then (xid : Int) else (xid : Int) - 2 ^ 32) flag) := by
  refine ⟨_, show_file_call connection uri xid flag self,
    show_file_live self connection obj uri xid flag p hobj hconn,
    show_file_dispatches self connection obj uri xid flag p, rfl, rfl, rfl, rfl, rfl, rfl,
    rfl, rfl, rfl, ?_⟩
  by_cases h : xid < 2 ^ 31
  · simp only [show_file_call, g_variant_new_sib, gint32_of_guint_small xid h, if_pos h]
  · simp only [show_file_call, g_variant_new_sib,
      gint32_of_guint_large xid (by omega) hxid, if_neg h]

theorem show_file_call_contents_witness :
    demo_live.deref 1 = some ⟨1, true, some 7, 0⟩ ∧ (4294967295 : Nat) < 2 ^ 32
      ∧ ∃ p1 c, nemo_previewer_call_show_file 1 "file:///tmp/a.png" 4294967295 true demo_live
            = some p1
          ∧ p1.bus.dispatches = [c]
          ∧ c.method_name = "ShowFile"
          ∧ c.parameters = some (GVariant.tuple_sib "file:///tmp/a.png" (-1) true) := by
  obtain ⟨p1, c, h1, h2, _, _, _, _, h7, _, _, _, _, h12⟩ := show_file_call_contents demo_live 1 7
    ⟨1, true, some 7, 0⟩ "file:///tmp/a.png" 4294967295 true rfl rfl (by decide)
  exact ⟨rfl, by decide, p1, c, h1, h2, h7, h12⟩

/-- C6: the one method call `nemo_previewer_call_close` dispatches on a live
connection goes to the same service, object path and interface as ShowFile,
has member Close, carries no arguments, and has the do-not-auto-start bit set
in its flag word; the call `nemo_previewer_call_show_file` dispatches from the
same state, for any arguments, has that bit clear. -/
theorem close_call_contents (p : Process) (self connection : Nat) (obj : NemoPreviewer)
    (hobj : p.deref self = some obj) (hconn : obj.connection = some connection) :
    (∃ p1 c, nemo_previewer_call_close self p = some p1
      ∧ p1.bus.dispatches = p.bus.dispatches ++ [c]
      ∧ c.connection = connection
      ∧ c.bus_name = "org.gnome.NautilusPreviewer"
      ∧ c.object_path = "/org/gnome/NautilusPreviewer"
      ∧ c.interface_name = "org.gnome.NautilusPreviewer"
      ∧ c.method_name = "Close"
      ∧ c.parameters = none
      ∧ c.flags = G_DBUS_CALL_FLAGS_NO_AUTO_START
      ∧ no_auto_start_set c.flags = true)
    ∧ (∀ (uri : String) (xid : Nat) (flag : Bool),
        ∃ p2 d, nemo_previewer_call_show_file self uri xid flag p = some p2
          ∧ p2.bus.dispatches = p.bus.dispatches ++ [d]
          ∧ d.bus_name = "org.gnome.NautilusPreviewer"
          ∧ d.object_path = "/org/gnome/NautilusPreviewer"
          ∧ d.interface_name = "org.gnome.NautilusPreviewer"
          ∧ d.method_name = "ShowFile"
          ∧ no_auto_start_set d.flags = false) := by
  constructor
  · exact ⟨_, close_call connection self, close_live self connection obj p hobj hconn,
      close_dispatches self connection obj p, rfl, rfl, rfl, rfl, rfl, rfl, rfl,
      by simp [no_auto_start_set, close_call, G_DBUS_CALL_FLAGS_NO_AUTO_START]⟩
  · intro uri xid flag
    exact ⟨_, show_file_call connection uri xid flag self,
      show_file_live self connection obj uri xid flag p hobj hconn,
      show_file_dispatches self connection obj uri xid flag p, rfl, rfl, rfl, rfl,
      by simp [no_auto_start_set, show_file_call, G_DBUS_CALL_FLAGS_NONE]⟩

theorem close_call_contents_witness :
    demo_live.deref 1 = some ⟨1, true, some 7, 0⟩
      ∧ ∃ p1 c, nemo_previewer_call_close 1 demo_live = some p1
          ∧ p1.bus.dispatches = [c]
          ∧ c.method_name = "Close"
          ∧ c.parameters = none
          ∧ no_auto_start_set c.flags = true := by
  obtain ⟨p1, c, h1, h2, _, _, _, _, h7, h8, _, h10⟩ :=
    (close_call_contents demo_live 1 7 ⟨1, true, some 7, 0⟩ rfl rfl).1
  exact ⟨rfl, p1, c, h1, h2, h7, h8, h10⟩

/-! ### The signal handler -/

theorem selection_event_window_first (pre rest : List GtkWindow) (w : NemoWindow)
    (hpre : ∀ x, x ∈ pre → NEMO_IS_WINDOW x = false) :
    selection_event_window (pre ++ GtkWindow.nemo_window w :: rest) = some w := by
  induction pre with
  | nil => rfl
  | cons x t ih =>
    have hx := hpre x (List.mem_cons_self x t)
    have ht : ∀ y, y ∈ t → NEMO_IS_WINDOW y = false :=
      fun y hy => hpre y (List.mem_cons_of_mem x hy)
    cases x with
    | nemo_window v => simp [NEMO_IS_WINDOW] at hx
    | other i => simpa [selection_event_window] using ih ht

theorem selection_event_window_none (ws : List GtkWindow)
    (hws : ∀ x, x ∈ ws → NEMO_IS_WINDOW x = false) :
    selection_event_window ws = none := by
  induction ws with
  | nil => rfl
  | cons x t ih =>
    have hx := hws x (List.mem_cons_self x t)
    have ht : ∀ y, y ∈ t → NEMO_IS_WINDOW y = false :=
      fun y hy => hws y (List.mem_cons_of_mem x hy)
    cases x with
    | nemo_window v => simp [NEMO_IS_WINDOW] at hx
    | other i => simpa [selection_event_window] using ih ht

/-- C8: `previewer_selection_event` on a payload `(u d)` always returns.  When
the window list is `pre ++ w :: rest` with `w` a file-manager window and no
file-manager window in `pre`, only `w` counts: if the current view of its
active slot is a view object `v`, the one effect is a single preview-selection
event `(v, d)` appended to the deliveries; if that current view is NULL or not
a view, nothing changes.  When the list has no file-manager window, nothing
changes.  In every case the objects, the singleton slot, the bus and the two
diagnostic channels are as before. -/
theorem selection_event_routing (p : Process) (connection : Nat)
    (sender_name object_path interface_name signal_name : String) (d : Nat)
    (user_data : Option Nat) :
    (∀ (pre rest : List GtkWindow) (w : NemoWindow),
        p.windows = pre ++ GtkWindow.nemo_window w :: rest →
        (∀ x, x ∈ pre → NEMO_IS_WINDOW x = false) →
        (∀ v, w.active_slot.current_view = some v → v.is_nemo_view = true →
          previewer_selection_event connection sender_name object_path interface_name
              signal_name (GVariant.tuple_u d) user_data p
            = some { p with delivered := p.delivered ++ [(v.id, d)] })
        ∧ (w.active_slot.current_view = none →
          previewer_selection_event connection sender_name object_path interface_name
              signal_name (GVariant.tuple_u d) user_data p = some p)
        ∧ (∀ v, w.active_slot.current_view = some v → v.is_nemo_view = false →
          previewer_selection_event connection sender_name object_path interface_name
              signal_name (GVariant.tuple_u d) user_data p = some p))
      ∧ ((∀ x, x ∈ p.windows → NEMO_IS_WINDOW x = false) →
          previewer_selection_event connection sender_name object_path interface_name
              signal_name (GVariant.tuple_u d) user_data p = some p)
      ∧ (∃ p1, previewer_selection_event connection sender_name object_path interface_name
              signal_name (GVariant.tuple_u d) user_data p = some p1
          ∧ p1.heap = p.heap ∧ p1.singleton = p.singleton ∧ p1.bus = p.bus
          ∧ p1.stderr = p.stderr ∧ p1.debug_log = p.debug_log
          ∧ (p1.delivered = p.delivered ∨ ∃ v, p1.delivered = p.delivered ++ [(v, d)])) := by
  refine ⟨?_, ?_, ?_⟩
  · intro pre rest w hw hpre
    have hfirst := selection_event_window_first pre rest w hpre
    rw [← hw] at hfirst
    refine ⟨?_, ?_, ?_⟩
    · intro v hv hview
      simp [previewer_selection_event, hfirst, nemo_window_get_active_slot,
        nemo_window_slot_get_current_view, hv, NEMO_IS_VIEW, hview, g_variant_get_u,
        nemo_view_preview_selection_event]
    · intro hv
      simp [previewer_selection_event, hfirst, nemo_window_get_active_slot,
        nemo_window_slot_get_current_view, hv, NEMO_IS_VIEW]
    · intro v hv hview
      simp [previewer_selection_event, hfirst, nemo_window_get_active_slot,
        nemo_window_slot_get_current_view, hv, NEMO_IS_VIEW, hview]
  · intro hws
    simp [previewer_selection_event, selection_event_window_none p.windows hws]
  · unfold previewer_selection_event
    cases hwin : selection_event_window p.windows with
    | none => exact ⟨p, rfl, rfl, rfl, rfl, rfl, rfl, Or.inl rfl⟩
    | some w =>
      cases hv : w.active_slot.current_view with
      | none =>
        simp [nemo_window_get_active_slot, nemo_window_slot_get_current_view, hv, NEMO_IS_VIEW]
      | some v =>
        cases hview : v.is_nemo_view with
        | false =>
          simp [nemo_window_get_active_slot, nemo_window_slot_get_current_view, hv,
            NEMO_IS_VIEW, hview]
        | true =>
          simp [nemo_window_get_active_slot, nemo_window_slot_get_current_view, hv,
            NEMO_IS_VIEW, hview, g_variant_get_u, nemo_view_preview_selection_event]

theorem selection_event_routing_witness :
    demo_windows.windows = [GtkWindow.other 9] ++ GtkWindow.nemo_window ⟨⟨some ⟨40, true⟩⟩⟩
        :: [GtkWindow.nemo_window ⟨⟨some ⟨41, true⟩⟩⟩]
      ∧ previewer_selection_event 7 ":1.5" "/org/gnome/NautilusPreviewer"
          "org.gnome.NautilusPreviewer2" "SelectionEvent" (GVariant.tuple_u 3) none demo_windows
        = some { demo_windows with delivered := demo_windows.delivered ++ [(40, 3)] } :=
  ⟨rfl, ((selection_event_routing demo_windows 7 ":1.5" "/org/gnome/NautilusPreviewer"
    "org.gnome.NautilusPreviewer2" "SelectionEvent" 3 none).1 [GtkWindow.other 9]
    [GtkWindow.nemo_window ⟨⟨some ⟨41, true⟩⟩⟩] ⟨⟨some ⟨40, true⟩⟩⟩ rfl
    (by intro x hx; simp at hx; subst hx; rfl)).1 ⟨40, true⟩ rfl rfl⟩

/-! ### The singleton -/

theorem lifecycle_inv_start (session_bus : Except String Nat) (alloc : Nat → Nat)
    (windows : List GtkWindow) : lifecycle_inv (Process.start session_bus alloc windows) :=
  Or.inl ⟨rfl, rfl⟩

theorem get_singleton_published (p : Process) (s : Nat) (h : p.singleton = some s) :
    nemo_previewer_get_singleton p = (s, p) := by
  simp [nemo_previewer_get_singleton, nemo_previewer_constructor, h]

theorem get_singleton_empty (p : Process) (h : p.singleton = none) :
    (nemo_previewer_get_singleton p).1 = p.next_addr
      ∧ (nemo_previewer_get_singleton p).2.singleton = some p.next_addr
      ∧ ∃ o, (nemo_previewer_get_singleton p).2.heap = (p.next_addr, o) :: p.heap
          ∧ o.weak_singleton = true ∧ o.ref_count = 1 ∧ o.previewer_selection_id = 0
          ∧ o.connection = p.session_bus.toOption := by
  cases hsb : p.session_bus with
  | ok c =>
    simp [nemo_previewer_get_singleton, nemo_previewer_constructor, h, g_object_constructor,
      nemo_previewer_init, hsb, g_object_add_weak_pointer, Process.modify, heap_modify,
      Except.toOption]
  | error m =>
    simp [nemo_previewer_get_singleton, nemo_previewer_constructor, h, g_object_constructor,
      nemo_previewer_init, hsb, g_object_add_weak_pointer, Process.modify, heap_modify,
      g_printerr, Except.toOption]

theorem lifecycle_inv_step (e : LifecycleEvent) (p : Process) (h : lifecycle_inv p) :
    lifecycle_inv (lifecycle_step e p) := by
  cases e with
  | request =>
    rcases h with ⟨hs, hh⟩ | ⟨a, o, hs, hh, hw⟩
    · obtain ⟨_, h2, o, h3, h4, _⟩ := get_singleton_empty p hs
      refine Or.inr ⟨p.next_addr, o, h2, ?_, h4⟩
      simpa [lifecycle_step, hh] using h3
    · have := get_singleton_published p a hs
      simp only [lifecycle_step, this]
      exact Or.inr ⟨a, o, hs, hh, hw⟩
  | finalize =>
    rcases h with ⟨hs, hh⟩ | ⟨a, o, hs, hh, hw⟩
    · simp only [lifecycle_step, hs]
      exact Or.inl ⟨hs, hh⟩
    · refine Or.inl ?_
      simp [lifecycle_step, hs, Process.deref, hh, heap_get, g_object_last_unref,
        nemo_previewer_dispose, DEBUG, Process.modify, heap_modify, hw]

theorem lifecycle_inv_run (evs : List LifecycleEvent) (p : Process) (h : lifecycle_inv p) :
    lifecycle_inv (lifecycle_run evs p) := by
  induction evs generalizing p with
  | nil => exact h
  | cons e es ih => exact ih _ (lifecycle_inv_step e p h)

/-- C7: after any finite sequence of `get_singleton` requests and
finalizations, at most one bridge instance is alive and the live instances are
exactly the published one; a further request returns the published instance
and changes nothing when the slot is non-empty, and when the slot is empty it
allocates one new instance and publishes it; the number of live instances grows
(by one) if and only if the slot was empty. -/
theorem singleton_at_most_one (session_bus : Except String Nat) (alloc : Nat → Nat)
    (windows : List GtkWindow) (evs : List LifecycleEvent) :
    (lifecycle_state session_bus alloc windows evs).heap.length ≤ 1
      ∧ (lifecycle_state session_bus alloc windows evs).heap.map Prod.fst
          = (lifecycle_state session_bus alloc windows evs).singleton.toList
      ∧ (∀ s, (lifecycle_state session_bus alloc windows evs).singleton = some s →
          nemo_previewer_get_singleton (lifecycle_state session_bus alloc windows evs)
            = (s, lifecycle_state session_bus alloc windows evs))
      ∧ ((lifecycle_state session_bus alloc windows evs).singleton = none →
          (lifecycle_state session_bus alloc windows evs).heap = []
          ∧ (nemo_previewer_get_singleton
              (lifecycle_state session_bus alloc windows evs)).2.singleton
            = some (nemo_previewer_get_singleton
              (lifecycle_state session_bus alloc windows evs)).1
          ∧ (nemo_previewer_get_singleton
              (lifecycle_state session_bus alloc windows evs)).2.heap.map Prod.fst
            = [(nemo_previewer_get_singleton
              (lifecycle_state session_bus alloc windows evs)).1])
      ∧ ((nemo_previewer_get_singleton
            (lifecycle_state session_bus alloc windows evs)).2.heap.length
          = (lifecycle_state session_bus alloc windows evs).heap.length + 1
        ↔ (lifecycle_state session_bus alloc windows evs).singleton = none) := by
  have hinv : lifecycle_inv (lifecycle_state session_bus alloc windows evs) :=
    lifecycle_inv_run evs _ (lifecycle_inv_start session_bus alloc windows)
  generalize lifecycle_state session_bus alloc windows evs = p at hinv
  refine ⟨?_, ?_, get_singleton_published p, ?_, ?_⟩
  · rcases hinv with ⟨_, hh⟩ | ⟨a, o, _, hh, _⟩ <;> simp [hh]
  · rcases hinv with ⟨hs, hh⟩ | ⟨a, o, hs, hh, _⟩ <;> simp [hh, hs]
  · intro hs
    rcases hinv with ⟨_, hh⟩ | ⟨a, o, hs2, _, _⟩
    · obtain ⟨h1, h2, o, h3, _⟩ := get_singleton_empty p hs
      refine ⟨hh, ?_, ?_⟩
      · rw [h2, h1]
      · rw [h3, h1, hh]; rfl
    · rw [hs] at hs2; cases hs2
  · constructor
    · intro hlen
      cases hs : p.singleton with
      | none => rfl
      | some s =>
        rw [get_singleton_published p s hs] at hlen
        simp at hlen
    · intro hs
      obtain ⟨_, _, o, h3, _⟩ := get_singleton_empty p hs
      rw [h3]; rfl

/-- C10: when the slot holds a published instance, `nemo_previewer_constructor`
returns it and leaves the whole state, the reference count of the instance
included, as it was.  So in a process that started without a bridge, two
`get_singleton` requests return the same pointer to an instance with a
reference count of one, and a single `g_object_unref` then finalizes it: the
slot is empty, the heap is empty, and the pointer the second requester got is
dangling (a call through it is undefined). -/
theorem constructor_takes_no_reference :
    (∀ (p : Process) (s : Nat), p.singleton = some s →
        nemo_previewer_constructor p = (s, p)
        ∧ (nemo_previewer_get_singleton p).1 = s
        ∧ (nemo_previewer_get_singleton p).2.singleton = some s
        ∧ ((nemo_previewer_get_singleton p).2.deref s).map (fun o => o.ref_count)
            = (p.deref s).map (fun o => o.ref_count))
      ∧ (∀ (session_bus : Except String Nat) (alloc : Nat → Nat) (windows : List GtkWindow),
          ∃ first second p1 p2 p3,
            nemo_previewer_get_singleton (Process.start session_bus alloc windows) = (first, p1)
            ∧ nemo_previewer_get_singleton p1 = (second, p2)
            ∧ second = first
            ∧ (p1.deref first).map (fun o => o.ref_count) = some 1
            ∧ (p2.deref second).map (fun o => o.ref_count) = some 1
            ∧ g_object_unref first p2 = some p3
            ∧ p3.singleton = none
            ∧ p3.heap = []
            ∧ p3.deref second = none
            ∧ nemo_previewer_call_close second p3 = none) := by
  constructor
  · intro p s hs
    have h := get_singleton_published p s hs
    refine ⟨h, ?_, ?_, ?_⟩
    · rw [h]
    · rw [h]; exact hs
    · rw [h]
  · intro session_bus alloc windows
    obtain ⟨h1, h2, o, h3, h4, h5, _⟩ :=
      get_singleton_empty (Process.start session_bus alloc windows) rfl
    have hnext : (Process.start session_bus alloc windows).next_addr = 1 := rfl
    rw [hnext] at h1 h2 h3
    have hheap : (Process.start session_bus alloc windows).heap = [] := rfl
    rw [hheap] at h3
    generalize nemo_previewer_get_singleton (Process.start session_bus alloc windows) = r
      at h1 h2 h3
    obtain ⟨first, p1⟩ := r
    simp only at h1 h2 h3
    subst h1
    have hderef : p1.deref 1 = some o := by simp [Process.deref, h3, heap_get]
    refine ⟨1, 1, p1, p1, g_object_last_unref 1 o p1, rfl, get_singleton_published p1 1 h2, rfl,
      ?_, ?_, ?_, ?_, ?_, ?_, ?_⟩
    · simp [hderef, h5]
    · simp [hderef, h5]
    · simp [g_object_unref, hderef, h5]
    · simp [g_object_last_unref, h4]
    · simp [g_object_last_unref, nemo_previewer_dispose, DEBUG, Process.modify, h3, heap_modify]
    · simp [g_object_last_unref, nemo_previewer_dispose, DEBUG, Process.modify, h3, heap_modify,
        Process.deref, heap_get]
    · simp [nemo_previewer_call_close, g_object_last_unref, nemo_previewer_dispose, DEBUG,
        Process.modify, h3, heap_modify, Process.deref, heap_get]

theorem constructor_takes_no_reference_witness :
    demo_live.singleton = some 1
      ∧ nemo_previewer_constructor demo_live = (1, demo_live)
      ∧ ((nemo_previewer_get_singleton demo_live).2.deref 1).map (fun o => o.ref_count)
          = (demo_live.deref 1).map (fun o => o.ref_count) :=
  ⟨rfl, (constructor_takes_no_reference.1 demo_live 1 rfl).1,
    (constructor_takes_no_reference.1 demo_live 1 rfl).2.2.2⟩

/-! ### References held by pending calls, and the subscription invariant -/

theorem unref_shared (a : Nat) (p : Process) (o : NemoPreviewer) (hobj : p.deref a = some o)
    (h2 : 2 ≤ o.ref_count) :
    g_object_unref a p = some (p.modify a (fun x => { x with ref_count := x.ref_count - 1 })) := by
  have h : ¬ o.ref_count ≤ 1 := by omega
  simp [g_object_unref, hobj, h]

theorem show_file_ready_shared (res : Option String) (a : Nat) (p : Process) (o : NemoPreviewer)
    (hobj : p.deref a = some o) (h2 : 2 ≤ o.ref_count) :
    previewer_show_file_ready_cb res a p
      = some (ready_result "Unable to call ShowFile on NemoPreviewer: " res a p) := by
  unfold previewer_show_file_ready_cb
  rw [hobj]
  cases res with
  | none =>
    simp only []
    rw [unref_shared a p o hobj h2]
    simp [ready_result, Process.modify]
  | some m =>
    simp only []
    rw [unref_shared a (DEBUG _ p) o hobj h2]
    simp [ready_result, Process.modify, DEBUG]

theorem close_ready_shared (res : Option String) (a : Nat) (p : Process) (o : NemoPreviewer)
    (hobj : p.deref a = some o) (h2 : 2 ≤ o.ref_count) :
    previewer_close_ready_cb res a p
      = some (ready_result "Unable to call Close on NemoPreviewer: " res a p) := by
  unfold previewer_close_ready_cb
  rw [hobj]
  cases res with
  | none =>
    simp only []
    rw [unref_shared a p o hobj h2]
    simp [ready_result, Process.modify]
  | some m =>
    simp only []
    rw [unref_shared a (DEBUG _ p) o hobj h2]
    simp [ready_result, Process.modify, DEBUG]

theorem deref_ready_result (text : String) (res : Option String) (a : Nat) (p : Process)
    (o : NemoPreviewer) (hobj : p.deref a = some o) :
    (ready_result text res a p).deref a = some { o with ref_count := o.ref_count - 1 } := by
  have h : heap_get a p.heap = some o := hobj
  simp [ready_result, Process.deref, heap_get_modify, h]

theorem show_file_absent (self : Nat) (uri : String) (xid : Nat) (flag : Bool) (p : Process)
    (obj : NemoPreviewer) (hobj : p.deref self = some obj) (hconn : obj.connection = none) :
    nemo_previewer_call_show_file self uri xid flag p
      = some (g_printerr "No DBus connection available" p) := by
  simp [nemo_previewer_call_show_file, hobj, hconn]

theorem close_absent (self : Nat) (p : Process) (obj : NemoPreviewer)
    (hobj : p.deref self = some obj) (hconn : obj.connection = none) :
    nemo_previewer_call_close self p = some (g_printerr "No DBus connection available" p) := by
  simp [nemo_previewer_call_close, hobj, hconn]

theorem complete_call_shared (self n i : Nat) (res : Option String) (p : Process)
    (hn : 0 < n) (h : ref_inv self n p) (c : MethodCall) (hc : p.bus.pending.get? i = some c) :
    ∃ text, complete_call i res p
      = some (ready_result text res self
          { p with bus := { p.bus with pending := p.bus.pending.eraseIdx i } }) := by
  obtain ⟨o, hobj, hrc, hud⟩ := h
  have hmem : c ∈ p.bus.pending := List.get?_mem hc
  have hself : c.user_data = self := hud c hmem
  have hlen : 0 < p.bus.pending.length := List.length_pos_of_mem hmem
  have h2 : 2 ≤ o.ref_count := by omega
  unfold complete_call
  rw [hc]
  simp only [hself]
  cases c.callback with
  | show_file_ready =>
    exact ⟨_, show_file_ready_shared res self _ o hobj h2⟩
  | close_ready =>
    exact ⟨_, close_ready_shared res self _ o hobj h2⟩

theorem bridge_step_inv (self n : Nat) (e : BridgeEvent) (p : Process) (hn : 0 < n)
    (h : ref_inv self n p) :
    ∃ p1, bridge_step self e p = some p1 ∧ ref_inv self n p1
      ∧ (sub_inv self p → sub_inv self p1) := by
  have h0 := h
  obtain ⟨o, hobj, hrc, hud⟩ := h
  cases e with
  | show_file uri xid flag =>
    cases hconn : o.connection with
    | none =>
      refine ⟨_, show_file_absent self uri xid flag p o hobj hconn, h0, fun hs => hs⟩
    | some conn =>
      refine ⟨_, show_file_live self conn o uri xid flag p hobj hconn, ?_, ?_⟩
      · refine ⟨_, deref_show_file_result self conn o uri xid flag p hobj, ?_, ?_⟩
        · simp [show_file_result, hrc]; omega
        · intro c hcmem
          have : c ∈ p.bus.pending ∨ c = show_file_call conn uri xid flag self := by
            simpa [show_file_result] using hcmem
          rcases this with hm | hm
          · exact hud c hm
          · rw [hm]; rfl
      · rintro ⟨hnz, o2, hobj2, hsub⟩
        have ho : o2 = o := by rw [hobj] at hobj2; exact (Option.some.inj hobj2).symm
        subst ho
        refine ⟨hnz, _, deref_show_file_result self conn o2 uri xid flag p hobj, ?_⟩
        rw [show_file_selection_subscriptions, hsub]
        have hne : p.bus.alloc p.bus.issued ≠ 0 := hnz _
        by_cases hid : o2.previewer_selection_id = 0
        · simp [hid, hne]
        · simp [hid, hne, selection_match]
  | close =>
    cases hconn : o.connection with
    | none =>
      refine ⟨_, close_absent self p o hobj hconn, h0, fun hs => hs⟩
    | some conn =>
      refine ⟨_, close_live self conn o p hobj hconn, ?_, ?_⟩
      · refine ⟨_, deref_close_result self conn o p hobj, ?_, ?_⟩
        · simp [close_result, hrc]; omega
        · intro c hcmem
          have : c ∈ p.bus.pending ∨ c = close_call conn self := by
            simpa [close_result] using hcmem
          rcases this with hm | hm
          · exact hud c hm
          · rw [hm]; rfl
      · rintro ⟨hnz, o2, hobj2, hsub⟩
        have ho : o2 = o := by rw [hobj] at hobj2; exact (Option.some.inj hobj2).symm
        subst ho
        refine ⟨hnz, _, deref_close_result self conn o2 p hobj, ?_⟩
        rw [close_selection_subscriptions, hsub]
        by_cases hid : o2.previewer_selection_id = 0
        · simp [hid]
        · simp [hid, selection_match]
  | complete i res =>
    cases hc : p.bus.pending.get? i with
    | none =>
      refine ⟨p, ?_, h0, fun hs => hs⟩
      show complete_call i res p = some p
      unfold complete_call
      rw [hc]
    | some c =>
      obtain ⟨text, hcc⟩ := complete_call_shared self n i res p hn h0 c hc
      have hlt : i < p.bus.pending.length := by
        obtain ⟨hlt, _⟩ := List.get?_eq_some.mp hc
        exact hlt
      have hobj1 : Process.deref
          { p with bus := { p.bus with pending := p.bus.pending.eraseIdx i } } self = some o :=
        hobj
      refine ⟨_, hcc, ?_, ?_⟩
      · refine ⟨_, deref_ready_result text res self _ o hobj1, ?_, ?_⟩
        · simp [ready_result, List.length_eraseIdx, hlt, hrc]; omega
        · intro c2 hc2
          have : c2 ∈ p.bus.pending.eraseIdx i := by simpa [ready_result] using hc2
          exact hud c2 (List.mem_of_mem_eraseIdx this)
      · rintro ⟨hnz, o2, hobj2, hsub⟩
        have ho : o2 = o := by rw [hobj] at hobj2; exact (Option.some.inj hobj2).symm
        subst ho
        exact ⟨hnz, _, deref_ready_result text res self _ o2 hobj1, hsub⟩

theorem bridge_run_inv (self n : Nat) (evs : List BridgeEvent) (p : Process) (hn : 0 < n)
    (h : ref_inv self n p) :
    ∃ q, bridge_run self evs p = some q ∧ ref_inv self n q
      ∧ (sub_inv self p → sub_inv self q) := by
  induction evs generalizing p with
  | nil => exact ⟨p, rfl, h, fun hs => hs⟩
  | cons e es ih =>
    obtain ⟨p1, hstep, hr1, hs1⟩ := bridge_step_inv self n e p hn h
    obtain ⟨q, hrun, hrq, hsq⟩ := ih p1 hr1
    refine ⟨q, ?_, hrq, fun hs => hsq (hs1 hs)⟩
    simp [bridge_run, hstep, hrun]

/-- C4: from a bridge whose stored subscription id is zero, with no selection
match live, no call pending and at least one reference held, over a bus that
hands out nonzero ids, every finite sequence of `show_file` calls, `close`
calls and call completions runs to a state in which at most one selection
match is live, the stored id is zero exactly when none is live, and a nonzero
stored id is the id of the single live match. -/
theorem subscription_invariant (p0 : Process) (self : Nat) (obj : NemoPreviewer)
    (evs : List BridgeEvent)
    (hobj : p0.deref self = some obj) (hid : obj.previewer_selection_id = 0)
    (hsub : p0.bus.selection_subscriptions = []) (hrc : 0 < obj.ref_count)
    (hpend : p0.bus.pending = []) (hnz : ∀ k, p0.bus.alloc k ≠ 0) :
    ∃ q o, bridge_run self evs p0 = some q ∧ q.deref self = some o
      ∧ q.bus.selection_subscriptions.length ≤ 1
      ∧ (o.previewer_selection_id = 0 ↔ q.bus.selection_subscriptions = [])
      ∧ (o.previewer_selection_id ≠ 0 →
          q.bus.selection_subscriptions = [selection_match o.previewer_selection_id]
          ∧ q.bus.selection_subscriptions.map (fun s => s.id) = [o.previewer_selection_id]) := by
  have href : ref_inv self obj.ref_count p0 := ⟨obj, hobj, by simp [hpend], by simp [hpend]⟩
  have hs0 : sub_inv self p0 := ⟨hnz, obj, hobj, by simp [hid, hsub]⟩
  obtain ⟨q, hrun, _, hsq⟩ := bridge_run_inv self obj.ref_count evs p0 hrc href
  obtain ⟨_, o, hqo, hqs⟩ := hsq hs0
  refine ⟨q, o, hrun, hqo, ?_, ?_, ?_⟩
  · rw [hqs]; split <;> simp
  · rw [hqs]
    by_cases h : o.previewer_selection_id = 0 <;> simp [h]
  · intro h
    rw [hqs]
    simp [h, selection_match]

theorem subscription_invariant_witness :
    demo_live.deref 1 = some ⟨1, true, some 7, 0⟩
      ∧ demo_live.bus.selection_subscriptions = []
      ∧ demo_live.bus.pending = []
      ∧ ∃ q o, bridge_run 1 [BridgeEvent.show_file "file:///tmp/a.png" 12345 false,
            BridgeEvent.show_file "file:///tmp/b.png" 12345 true,
            BridgeEvent.complete 0 none] demo_live = some q
          ∧ q.deref 1 = some o
          ∧ q.bus.selection_subscriptions.length ≤ 1
          ∧ (o.previewer_selection_id = 0 ↔ q.bus.selection_subscriptions = [])
          ∧ (o.previewer_selection_id ≠ 0 →
              q.bus.selection_subscriptions = [selection_match o.previewer_selection_id]
              ∧ q.bus.selection_subscriptions.map (fun s => s.id)
                  = [o.previewer_selection_id]) :=
  ⟨rfl, rfl, rfl, subscription_invariant demo_live 1 ⟨1, true, some 7, 0⟩
    [BridgeEvent.show_file "file:///tmp/a.png" 12345 false,
      BridgeEvent.show_file "file:///tmp/b.png" 12345 true,
      BridgeEvent.complete 0 none] rfl rfl rfl (by decide) rfl (fun k => Nat.succ_ne_zero k)⟩

/-- C9: on a bridge with a connection and at least one reference held, a
`show_file` or `close` dispatch leaves the reference count one higher and one
more call pending, and the completion callback of that call, run with an error
or without, brings the count back to what it was before the dispatch.  Over any
finite sequence of `show_file` calls, `close` calls and completions that starts
with no call pending, the reference count is the count at the start plus the
number of pending calls, so it is above the count at the start whenever a call
is pending. -/
theorem pending_call_holds_reference (p : Process) (self connection : Nat) (obj : NemoPreviewer)
    (hobj : p.deref self = some obj) (hconn : obj.connection = some connection)
    (hrc : 0 < obj.ref_count) :
    (∀ (uri : String) (xid : Nat) (flag : Bool),
        ∃ p1, nemo_previewer_call_show_file self uri xid flag p = some p1
          ∧ (p1.deref self).map (fun o => o.ref_count) = some (obj.ref_count + 1)
          ∧ p1.bus.pending = p.bus.pending ++ [show_file_call connection uri xid flag self]
          ∧ ∀ res : Option String,
              ∃ p2, previewer_show_file_ready_cb res self p1 = some p2
                ∧ (p2.deref self).map (fun o => o.ref_count) = some obj.ref_count)
      ∧ (∃ p1, nemo_previewer_call_close self p = some p1
          ∧ (p1.deref self).map (fun o => o.ref_count) = some (obj.ref_count + 1)
          ∧ p1.bus.pending = p.bus.pending ++ [close_call connection self]
          ∧ ∀ res : Option String,
              ∃ p2, previewer_close_ready_cb res self p1 = some p2
                ∧ (p2.deref self).map (fun o => o.ref_count) = some obj.ref_count)
      ∧ (p.bus.pending = [] → ∀ evs : List BridgeEvent,
          ∃ q o, bridge_run self evs p = some q ∧ q.deref self = some o
            ∧ o.ref_count = obj.ref_count + q.bus.pending.length
            ∧ (q.bus.pending ≠ [] → obj.ref_count < o.ref_count)) := by
  refine ⟨?_, ?_, ?_⟩
  · intro uri xid flag
    have hd := deref_show_file_result self connection obj uri xid flag p hobj
    refine ⟨_, show_file_live self connection obj uri xid flag p hobj hconn, ?_, rfl, ?_⟩
    · rw [hd]; rfl
    · intro res
      refine ⟨_, show_file_ready_shared res self _ _ hd (by simp; omega), ?_⟩
      rw [deref_ready_result _ res self _ _ hd]
      simp
  · have hd := deref_close_result self connection obj p hobj
    refine ⟨_, close_live self connection obj p hobj hconn, ?_, rfl, ?_⟩
    · rw [hd]; rfl
    · intro res
      refine ⟨_, close_ready_shared res self _ _ hd (by simp; omega), ?_⟩
      rw [deref_ready_result _ res self _ _ hd]
      simp
  · intro hpend evs
    have href : ref_inv self obj.ref_count p := ⟨obj, hobj, by simp [hpend], by simp [hpend]⟩
    obtain ⟨q, hrun, ⟨o, hqo, hqrc, _⟩, _⟩ := bridge_run_inv self obj.ref_count evs p hrc href
    refine ⟨q, o, hrun, hqo, hqrc, ?_⟩
    intro hne
    have : 0 < q.bus.pending.length := List.length_pos.mpr hne
    omega

theorem pending_call_holds_reference_witness :
    demo_live.deref 1 = some ⟨1, true, some 7, 0⟩
      ∧ ∃ p1, nemo_previewer_call_close 1 demo_live = some p1
          ∧ (p1.deref 1).map (fun o => o.ref_count) = some 2
          ∧ p1.bus.pending = [close_call 7 1]
          ∧ ∀ res : Option String,
              ∃ p2, previewer_close_ready_cb res 1 p1 = some p2
                ∧ (p2.deref 1).map (fun o => o.ref_count) = some 1 :=
  ⟨rfl, (pending_call_holds_reference demo_live 1 7 ⟨1, true, some 7, 0⟩ rfl rfl
    (by decide)).2.1⟩

theorem singleton_at_most_one_witness :
    (lifecycle_state (Except.ok 7) (fun n => n + 1) []
        [LifecycleEvent.request, LifecycleEvent.request, LifecycleEvent.finalize,
          LifecycleEvent.request]).singleton = some 2
      ∧ (lifecycle_state (Except.ok 7) (fun n => n + 1) []
        [LifecycleEvent.request, LifecycleEvent.request, LifecycleEvent.finalize,
          LifecycleEvent.request]).heap.length ≤ 1
      ∧ nemo_previewer_get_singleton (lifecycle_state (Except.ok 7) (fun n => n + 1) []
          [LifecycleEvent.request, LifecycleEvent.request, LifecycleEvent.finalize,
            LifecycleEvent.request])
        = (2, lifecycle_state (Except.ok 7) (fun n => n + 1) []
          [LifecycleEvent.request, LifecycleEvent.request, LifecycleEvent.finalize,
            LifecycleEvent.request]) :=
  ⟨rfl, (singleton_at_most_one (Except.ok 7) (fun n => n + 1) []
      [LifecycleEvent.request, LifecycleEvent.request, LifecycleEvent.finalize,
        LifecycleEvent.request]).1,
    (singleton_at_most_one (Except.ok 7) (fun n => n + 1) []
      [LifecycleEvent.request, LifecycleEvent.request, LifecycleEvent.finalize,
        LifecycleEvent.request]).2.2.1 2 rfl⟩

end Nemo
